import Mathlib

/-!
# Stream Analytics reference input (MSSQL): lifecycle functions

A shallow embedding of
`azurerm/internal/services/streamanalytics/stream_analytics_reference_input_mssql_resource.go`.

* `*schema.ResourceData` is the record `ResourceData`, passed in and returned.
* The remote management API is an `InputsClient` over an abstract remote state; every
  call that is issued is appended to a call log (`World.calls`) together with the
  deadline of the context it was issued under.
* Go's `error` results are `Option Error` (`none` is `nil`); a run-time panic is
  the outcome `Outcome.panicked`.
* Go's `*string` is `Option String` (`none` is `nil`).
-/

set_option linter.dupNamespace false

namespace streamanalytics

/-! ## Time and timeouts -/

/-- Go's `time.Duration`, a count of nanoseconds. -/
abbrev Duration := Nat

/-- Constant `time.Minute`. -/
def time.Minute : Duration := 60000000000

/-- The four ceilings of `schema.ResourceTimeout`, as `d.Timeout(key)` reports them. -/
structure ResourceTimeout where
  Create : Duration
  Read : Duration
  Update : Duration
  Delete : Duration
deriving DecidableEq, Repr

/-- The `Timeouts` block of `resourceStreamAnalyticsReferenceInputSQL` (source lines 32-37). -/
def resourceStreamAnalyticsReferenceInputSQL.Timeouts : ResourceTimeout where
  Create := 30 * time.Minute
  Read := 5 * time.Minute
  Update := 30 * time.Minute
  Delete := 30 * time.Minute

/-! ## Resource data -/

/-- The part of `*schema.ResourceData` the lifecycle functions use: the persisted
identity, the new-resource mark, the flat attribute set (`none`: never set) and the
effective timeouts. -/
structure ResourceData where
  id : String
  isNew : Bool
  attrs : String → Option String
  timeouts : ResourceTimeout

/-- Method `d.Id()`. -/
def ResourceData.Id (d : ResourceData) : String := d.id

/-- Method `d.SetId(v)`. -/
def ResourceData.SetId (d : ResourceData) (v : String) : ResourceData :=
  { d with id := v }

/-- Method `d.IsNewResource()`. -/
def ResourceData.IsNewResource (d : ResourceData) : Bool := d.isNew

/-- Method `d.Get(key)` for a `TypeString` attribute: the stored string, or the zero
value `""` when the attribute was never set. -/
def ResourceData.Get (d : ResourceData) (key : String) : String :=
  (d.attrs key).getD ""

/-- Method `d.Set(key, value)` with a `string` or `*string` value; a `nil` pointer
stores the zero value. -/
def ResourceData.Set (d : ResourceData) (key : String) (value : Option String) : ResourceData :=
  { d with attrs := fun k => if k = key then some (value.getD "") else d.attrs k }

/-! ## Identity -/

/-- The struct `parse.StreamInputId`. -/
structure StreamInputId where
  SubscriptionId : String
  ResourceGroup : String
  StreamingjobName : String
  InputName : String
deriving DecidableEq, Repr

/-- Errors, one constructor per `fmt.Errorf` / error-returning site of the file;
`remote` and `parsing` are the errors handed back by the SDK client and by
`parse.StreamInputID`. -/
inductive Error
  | remote (msg : String)
  | parsing (msg : String)
  | checkingPresence (id : StreamInputId) (err : Error)
  | importAsExists (resourceName : String) (id : String)
  | creatingProps (err : Error)
  | updatingProps (err : Error)
  | creating (id : StreamInputId) (err : Error)
  | updating (id : StreamInputId) (err : Error)
  | retrieving (id : StreamInputId) (err : Error)
  | convertingToReferenceInput
  | convertingToSQLStreamInput
  | deleting (id : StreamInputId) (err : Error)
deriving DecidableEq, Repr

/-- Modelled from the spec: `parse.NewStreamInputID` (package `parse` is not among the
sources) builds the composite key from its four components. -/
def parse.NewStreamInputID (subscriptionId resourceGroup streamingjobName inputName : String) :
    StreamInputId :=
  ⟨subscriptionId, resourceGroup, streamingjobName, inputName⟩

/-- The rest of package `parse`, which is not among the sources, taken as a parameter:
`ID` serialises a key (`resourceID.ID()`), `StreamInputID` parses a string and may fail. -/
structure parse.Pkg where
  ID : StreamInputId → String
  StreamInputID : String → Except Error StreamInputId

/-! ## SDK types -/

/-- Go's `*http.Response`, reduced to its status code. -/
structure http.Response where
  StatusCode : Nat
deriving DecidableEq, Repr

/-- The struct `autorest.Response`: a possibly-nil `*http.Response`. -/
structure autorest.Response where
  Response : Option http.Response
deriving DecidableEq, Repr

/-- The struct `streamanalytics.AzureSQLReferenceInputDataSourceProperties`. -/
structure AzureSQLReferenceInputDataSourceProperties where
  Server : Option String
  Database : Option String
  User : Option String
  Password : Option String
  Table : Option String
  RefreshType : Option String
  RefreshRate : Option String
  FullSnapshotQuery : Option String
  DeltaSnapshotQuery : Option String
deriving DecidableEq, Repr

/-- The struct `streamanalytics.AzureSQLReferenceInputDataSource`; its `Type` tag is
the constructor it is wrapped in. -/
structure AzureSQLReferenceInputDataSource where
  Properties : Option AzureSQLReferenceInputDataSourceProperties
deriving DecidableEq, Repr

/-- The interface `streamanalytics.BasicReferenceInputDataSource` with its three
implementations; only the SQL one is read by this resource. -/
inductive BasicReferenceInputDataSource
  | blob
  | azureSQL (v : AzureSQLReferenceInputDataSource)
  | base
deriving DecidableEq, Repr

/-- Method `AsAzureSQLReferenceInputDataSource()`: the value and `true` for the SQL
data source, `nil, false` for the others. -/
def BasicReferenceInputDataSource.AsAzureSQLReferenceInputDataSource :
    BasicReferenceInputDataSource → Option AzureSQLReferenceInputDataSource × Bool
  | .azureSQL v => (some v, true)
  | _ => (none, false)

/-- The struct `streamanalytics.ReferenceInputProperties`; `Datasource` is an interface
value and may be nil. -/
structure ReferenceInputProperties where
  Datasource : Option BasicReferenceInputDataSource
deriving DecidableEq, Repr

/-- The interface `streamanalytics.BasicInputProperties` with its three implementations. -/
inductive BasicInputProperties
  | stream
  | reference (v : ReferenceInputProperties)
  | base
deriving DecidableEq, Repr

/-- Method `AsReferenceInputProperties()`: the value and `true` for reference input
properties, `nil, false` for the others. -/
def BasicInputProperties.AsReferenceInputProperties :
    BasicInputProperties → Option ReferenceInputProperties × Bool
  | .reference v => (some v, true)
  | _ => (none, false)

/-- The struct `streamanalytics.Input`, with the embedded `autorest.Response`; `Typ` is
its field `Type`. -/
structure Input where
  Response : autorest.Response
  Properties : Option BasicInputProperties
  ID : Option String
  Name : Option String
  Typ : Option String
deriving DecidableEq, Repr

/-! ## Spec building -/

/-- Function `optionalString` (source lines 240-249). The argument is an `interface{}`
holding nothing or a string. -/
def optionalString (s : Option String) (defaultValue : Option String) : Option String :=
  match s with
  | none => defaultValue
  | some retval =>
    if retval.utf8ByteSize = 0 then defaultValue
    else some retval

/-- Function `getSQLReferenceInputProps` (source lines 251-287). -/
def getSQLReferenceInputProps (d : ResourceData) : Input × Option Error :=
  let name := d.Get "name"
  let server := d.Get "server"
  let database := d.Get "database"
  let user := d.Get "user"
  let password := d.Get "password"
  let fullSnapshotQuery := d.Get "full_snapshot_query"
  let table := optionalString (some (d.Get "table")) none
  let refreshTypeDefault := "Static"
  let refreshType := optionalString (some (d.Get "refresh_type")) (some refreshTypeDefault)
  let refreshRateDefault := "00:00:00"
  let refreshRate := optionalString (some (d.Get "refresh_rate")) (some refreshRateDefault)
  let deltaSnapshotQuery := optionalString (some (d.Get "delta_snapshot_query")) none
  let props : Input :=
    { Response := ⟨none⟩
      Name := some name
      ID := none
      Typ := none
      Properties := some (.reference
        { Datasource := some (.azureSQL
            { Properties := some
                { Server := some server
                  Database := some database
                  User := some user
                  Password := some password
                  Table := table
                  RefreshType := refreshType
                  RefreshRate := refreshRate
                  FullSnapshotQuery := some fullSnapshotQuery
                  DeltaSnapshotQuery := deltaSnapshotQuery } }) }) }
  (props, none)

/-- The SQL data source properties carried by a built spec, if it has that shape. -/
def Input.sqlProperties (i : Input) : Option AzureSQLReferenceInputDataSourceProperties :=
  match i.Properties with
  | some (.reference ⟨some (.azureSQL ⟨some p⟩)⟩) => some p
  | _ => none

/-! ## Helpers from packages that are not among the sources -/

/-- The `context.Context` handed to a client call, reduced to the timeout it was
derived with. -/
structure Context where
  timeout : Duration
deriving DecidableEq, Repr

/-- Modelled from the spec: `timeouts.ForCreateUpdate` (package `timeouts` is not among
the sources) bounds the context by the ceiling of the combined create/update
operation kind: the Create ceiling for a new resource, the Update ceiling otherwise. -/
def timeouts.ForCreateUpdate (d : ResourceData) : Context :=
  if d.IsNewResource then ⟨d.timeouts.Create⟩ else ⟨d.timeouts.Update⟩

/-- Modelled from the spec: `timeouts.ForRead` (not called by this file) bounds the
context by the Read ceiling. -/
def timeouts.ForRead (d : ResourceData) : Context := ⟨d.timeouts.Read⟩

/-- Modelled from the spec: `timeouts.ForDelete` (not called by this file) bounds the
context by the Delete ceiling. -/
def timeouts.ForDelete (d : ResourceData) : Context := ⟨d.timeouts.Delete⟩

/-- Modelled from the spec: `response.WasNotFound` (not among the sources) tells whether
a possibly-nil HTTP response reports NotFound, status 404. -/
def response.WasNotFound (resp : Option http.Response) : Bool :=
  match resp with
  | none => false
  | some r => r.StatusCode == 404

/-- Modelled from the spec: `utils.ResponseWasNotFound` (not among the sources) tells
whether the response of an SDK call reports NotFound, status 404. -/
def utils.ResponseWasNotFound (resp : autorest.Response) : Bool :=
  match resp.Response with
  | none => false
  | some r => r.StatusCode == 404

/-- Modelled from the spec: `tf.ImportAsExistsError` (not among the sources) builds the
"already exists" collision error for a resource type and identity. -/
def tf.ImportAsExistsError (resourceName id : String) : Error :=
  .importAsExists resourceName id

/-! ## The remote API client and the world -/

/-- The SDK `InputsClient` over a remote with states `σ`. `Get` is a query: it
answers from the remote state and leaves it as it is. The mutating calls return
their answer together with the next remote state. -/
structure InputsClient (σ : Type) where
  Get : σ → Context → String → String → String → Input × Option Error
  CreateOrReplace : σ → Context → Input → String → String → String → String → String →
    (Input × Option Error) × σ
  Update : σ → Context → Input → String → String → String → String →
    (Input × Option Error) × σ
  Delete : σ → Context → String → String → String → (autorest.Response × Option Error) × σ

/-- The `meta` argument: `meta.(*clients.Client)` with the two fields the file reads. -/
structure clients.Client (σ : Type) where
  InputsClient : InputsClient σ
  SubscriptionId : String

/-- One call issued to the remote, with the context and the arguments it was issued with. -/
inductive Call
  | Get (ctx : Context) (resourceGroup jobName inputName : String)
  | CreateOrReplace (ctx : Context) (input : Input) (resourceGroup jobName inputName : String)
      (ifMatch ifNoneMatch : String)
  | Update (ctx : Context) (input : Input) (resourceGroup jobName inputName : String)
      (ifMatch : String)
  | Delete (ctx : Context) (resourceGroup jobName inputName : String)
deriving DecidableEq, Repr

/-- Whether a call is a `CreateOrReplace`. -/
def Call.isCreateOrReplace : Call → Bool
  | .CreateOrReplace .. => true
  | _ => false

/-- The remote state and the log of the calls issued so far, oldest first. -/
structure World (σ : Type) where
  remote : σ
  calls : List Call

/-- How a lifecycle function ends: it returns its `error` result, or it panics. -/
inductive Outcome
  | returned (err : Option Error)
  | panicked
deriving DecidableEq, Repr

/-- The result of running a lifecycle function: how it ended, the resource data and
the world it left behind. -/
structure Run (σ : Type) where
  outcome : Outcome
  d : ResourceData
  world : World σ

/-! ## Lifecycle functions -/

/-- Function `resourceStreamAnalyticsReferenceInputSQLRead` (source lines 171-219). -/
def resourceStreamAnalyticsReferenceInputSQLRead {σ : Type} (P : parse.Pkg)
    (meta : clients.Client σ) (d : ResourceData) (w : World σ) : Run σ :=
  let client := meta.InputsClient
  let ctx := timeouts.ForCreateUpdate d
  match P.StreamInputID d.Id with
  | .error err => ⟨.returned (some err), d, w⟩
  | .ok id =>
    let r := client.Get w.remote ctx id.ResourceGroup id.StreamingjobName id.InputName
    let resp := r.1
    let w := { w with calls := w.calls ++
      [Call.Get ctx id.ResourceGroup id.StreamingjobName id.InputName] }
    match r.2 with
    | some err =>
      if utils.ResponseWasNotFound resp.Response then
        ⟨.returned none, d.SetId "", w⟩
      else
        ⟨.returned (some (.retrieving id err)), d, w⟩
    | none =>
      let d := d.Set "name" (some id.InputName)
      let d := d.Set "stream_analytics_job_name" (some id.StreamingjobName)
      let d := d.Set "resource_group_name" (some id.ResourceGroup)
      match resp.Properties with
      | none => ⟨.returned none, d, w⟩
      | some props =>
        match props.AsReferenceInputProperties with
        | (_, false) => ⟨.returned (some .convertingToReferenceInput), d, w⟩
        | (none, true) => ⟨.panicked, d, w⟩
        | (some v, true) =>
          match v.Datasource with
          | none => ⟨.panicked, d, w⟩
          | some datasource =>
            match datasource.AsAzureSQLReferenceInputDataSource with
            | (_, false) => ⟨.returned (some .convertingToSQLStreamInput), d, w⟩
            | (none, true) => ⟨.panicked, d, w⟩
            | (some sqlInputDataSource, true) =>
              match sqlInputDataSource.Properties with
              | none => ⟨.panicked, d, w⟩
              | some properties =>
                let d := d.Set "server" properties.Server
                let d := d.Set "database" properties.Database
                let d := d.Set "user" properties.User
                let d := d.Set "table" properties.Table
                let d := d.Set "refresh_type" properties.RefreshType
                let d := d.Set "refresh_rate" properties.RefreshRate
                let d := d.Set "full_snapshot_query" properties.FullSnapshotQuery
                let d := d.Set "delta_snapshot_query" properties.DeltaSnapshotQuery
                ⟨.returned none, d, w⟩

/-- The pre-check of `resourceStreamAnalyticsReferenceInputSQLCreate` (source lines
122-133): the error it returns, if any, and the world after it. -/
def resourceStreamAnalyticsReferenceInputSQLCreate.precheck {σ : Type} (P : parse.Pkg)
    (meta : clients.Client σ) (d : ResourceData) (w : World σ) (ctx : Context)
    (resourceID : StreamInputId) : Option Error × World σ :=
  let client := meta.InputsClient
  if d.IsNewResource then
    let r := client.Get w.remote ctx resourceID.ResourceGroup resourceID.StreamingjobName
      resourceID.InputName
    let existing := r.1
    let w := { w with calls := w.calls ++
      [Call.Get ctx resourceID.ResourceGroup resourceID.StreamingjobName resourceID.InputName] }
    match r.2 with
    | some err =>
      if !utils.ResponseWasNotFound existing.Response then
        (some (.checkingPresence resourceID err), w)
      else if existing.ID ≠ none ∧ existing.ID ≠ some "" then
        (some (tf.ImportAsExistsError "azurerm_stream_analytics_reference_input_mssql"
          (P.ID resourceID)), w)
      else (none, w)
    | none =>
      if existing.ID ≠ none ∧ existing.ID ≠ some "" then
        (some (tf.ImportAsExistsError "azurerm_stream_analytics_reference_input_mssql"
          (P.ID resourceID)), w)
      else (none, w)
  else (none, w)

/-- Function `resourceStreamAnalyticsReferenceInputSQLCreate` (source lines 114-146). -/
def resourceStreamAnalyticsReferenceInputSQLCreate {σ : Type} (P : parse.Pkg)
    (meta : clients.Client σ) (d : ResourceData) (w : World σ) : Run σ :=
  let client := meta.InputsClient
  let subscriptionID := meta.SubscriptionId
  let ctx := timeouts.ForCreateUpdate d
  let resourceID := parse.NewStreamInputID subscriptionID (d.Get "resource_group_name")
    (d.Get "stream_analytics_job_name") (d.Get "name")
  match resourceStreamAnalyticsReferenceInputSQLCreate.precheck P meta d w ctx resourceID with
  | (some err, w) => ⟨.returned (some err), d, w⟩
  | (none, w) =>
    match getSQLReferenceInputProps d with
    | (_, some err) => ⟨.returned (some (.creatingProps err)), d, w⟩
    | (props, none) =>
      let r := client.CreateOrReplace w.remote ctx props resourceID.ResourceGroup
        resourceID.StreamingjobName resourceID.InputName "" ""
      let w : World σ := ⟨r.2, w.calls ++
        [Call.CreateOrReplace ctx props resourceID.ResourceGroup resourceID.StreamingjobName
          resourceID.InputName "" ""]⟩
      match r.1.2 with
      | some err => ⟨.returned (some (.creating resourceID err)), d, w⟩
      | none =>
        let d := d.SetId (P.ID resourceID)
        resourceStreamAnalyticsReferenceInputSQLRead P meta d w

/-- Function `resourceStreamAnalyticsReferenceInputSQLUpdate` (source lines 148-169). -/
def resourceStreamAnalyticsReferenceInputSQLUpdate {σ : Type} (P : parse.Pkg)
    (meta : clients.Client σ) (d : ResourceData) (w : World σ) : Run σ :=
  let client := meta.InputsClient
  let ctx := timeouts.ForCreateUpdate d
  match P.StreamInputID d.Id with
  | .error err => ⟨.returned (some err), d, w⟩
  | .ok id =>
    match getSQLReferenceInputProps d with
    | (_, some err) => ⟨.returned (some (.updatingProps err)), d, w⟩
    | (props, none) =>
      let r := client.Update w.remote ctx props id.ResourceGroup id.StreamingjobName
        id.InputName ""
      let w : World σ := ⟨r.2, w.calls ++
        [Call.Update ctx props id.ResourceGroup id.StreamingjobName id.InputName ""]⟩
      match r.1.2 with
      | some err => ⟨.returned (some (.updating id err)), d, w⟩
      | none => resourceStreamAnalyticsReferenceInputSQLRead P meta d w

/-- Function `resourceStreamAnalyticsReferenceInputSQLDelete` (source lines 221-238). -/
def resourceStreamAnalyticsReferenceInputSQLDelete {σ : Type} (P : parse.Pkg)
    (meta : clients.Client σ) (d : ResourceData) (w : World σ) : Run σ :=
  let client := meta.InputsClient
  let ctx := timeouts.ForCreateUpdate d
  match P.StreamInputID d.Id with
  | .error err => ⟨.returned (some err), d, w⟩
  | .ok id =>
    let r := client.Delete w.remote ctx id.ResourceGroup id.StreamingjobName id.InputName
    let resp := r.1.1
    let w : World σ := ⟨r.2, w.calls ++
      [Call.Delete ctx id.ResourceGroup id.StreamingjobName id.InputName]⟩
    match r.1.2 with
    | some err =>
      if !response.WasNotFound resp.Response then
        ⟨.returned (some (.deleting id err)), d, w⟩
      else ⟨.returned none, d, w⟩
    | none => ⟨.returned none, d, w⟩

/-! ## Schema -/

/-- Modelled from the spec: `unicode.IsSpace` of the Go standard library (not among the
sources), the white-space characters that `strings.TrimSpace` removes. -/
def unicode.IsSpace (r : Char) : Bool :=
  let n := r.toNat
  (0x09 ≤ n && n ≤ 0x0d) || n == 0x20 || n == 0x85 || n == 0xa0 || n == 0x1680 ||
  (0x2000 ≤ n && n ≤ 0x200a) || n == 0x2028 || n == 0x2029 || n == 0x202f ||
  n == 0x205f || n == 0x3000

/-- Modelled from the spec: `strings.TrimSpace` of the Go standard library (not among the
sources) removes all leading and trailing white space. -/
def strings.TrimSpace (s : String) : String :=
  ⟨((s.data.dropWhile unicode.IsSpace).reverse.dropWhile unicode.IsSpace).reverse⟩

/-- Modelled from the spec: `validation.StringIsNotEmpty` (the validation package is not
among the sources) reports an error exactly for the empty string ("required, non-empty"
in the attribute table). The result is the list of errors. -/
def validation.StringIsNotEmpty (v : String) (k : String) : List String :=
  if v = "" then ["expected " ++ k ++ " to not be an empty string"] else []

/-- Modelled from the spec: `validation.StringIsNotWhiteSpace` (the validation package is
not among the sources) reports an error when nothing is left of the string once white
space is trimmed ("required, non-whitespace" in the attribute table). The result is
the list of errors. -/
def validation.StringIsNotWhiteSpace (v : String) (k : String) : List String :=
  if strings.TrimSpace v = "" then
    ["expected " ++ k ++ " to not be an empty string or whitespace"]
  else []

/-- The fields of `schema.Schema` that the resource sets (all attributes are
`TypeString`). -/
structure schema.Schema where
  Required : Bool := false
  Optional : Bool := false
  ForceNew : Bool := false
  Sensitive : Bool := false
  ValidateFunc : String → String → List String

/-- The `Schema` map of `resourceStreamAnalyticsReferenceInputSQL` (source lines 39-110).
The entry of `resource_group_name` comes from `azure.SchemaResourceGroupName()`, which
is not among the sources and is taken as a parameter. -/
def resourceStreamAnalyticsReferenceInputSQL.Schema (SchemaResourceGroupName : schema.Schema)
    (key : String) : Option schema.Schema :=
  if key = "name" then
    some { Required := true, ForceNew := true, ValidateFunc := validation.StringIsNotEmpty }
  else if key = "stream_analytics_job_name" then
    some { Required := true, ForceNew := true, ValidateFunc := validation.StringIsNotEmpty }
  else if key = "resource_group_name" then
    some SchemaResourceGroupName
  else if key = "server" then
    some { Required := true, ValidateFunc := validation.StringIsNotWhiteSpace }
  else if key = "database" then
    some { Required := true, ValidateFunc := validation.StringIsNotWhiteSpace }
  else if key = "user" then
    some { Required := true, ValidateFunc := validation.StringIsNotWhiteSpace }
  else if key = "password" then
    some { Required := true, Sensitive := true, ValidateFunc := validation.StringIsNotWhiteSpace }
  else if key = "table" then
    some { Optional := true, ValidateFunc := validation.StringIsNotWhiteSpace }
  else if key = "refresh_type" then
    some { Required := true, ValidateFunc := validation.StringIsNotWhiteSpace }
  else if key = "refresh_rate" then
    some { Required := true, ValidateFunc := validation.StringIsNotWhiteSpace }
  else if key = "full_snapshot_query" then
    some { Required := true, ValidateFunc := validation.StringIsNotWhiteSpace }
  else if key = "delta_snapshot_query" then
    some { Optional := true, ValidateFunc := validation.StringIsNotWhiteSpace }
  else none

/-- The errors the declared validator of attribute `key` reports for the configured
value `v`; an attribute outside the schema has no validator. -/
def resourceStreamAnalyticsReferenceInputSQL.validate (SchemaResourceGroupName : schema.Schema)
    (key : String) (v : String) : List String :=
  match resourceStreamAnalyticsReferenceInputSQL.Schema SchemaResourceGroupName key with
  | some sch => sch.ValidateFunc v key
  | none => []

/-- The required attributes that the resource declares itself. -/
def requiredFields : List String :=
  ["name", "stream_analytics_job_name", "server", "database", "user", "password",
   "refresh_type", "refresh_rate", "full_snapshot_query"]

/-- A string that is empty or consists of white space only. -/
def isBlank (v : String) : Prop := ∀ c ∈ v.data, unicode.IsSpace c = true

instance (v : String) : Decidable (isBlank v) :=
  inferInstanceAs (Decidable (∀ c ∈ v.data, unicode.IsSpace c = true))

/-! ## Concrete collaborators for the scenarios -/

/-- A remote that answers every call with a fixed response and has no state. -/
def scriptedClient (getR : Input × Option Error) (putR : Input × Option Error)
    (delR : autorest.Response × Option Error) : InputsClient Unit where
  Get := fun _ _ _ _ _ => getR
  CreateOrReplace := fun _ _ _ _ _ _ _ _ => (putR, ())
  Update := fun _ _ _ _ _ _ _ => (putR, ())
  Delete := fun _ _ _ _ _ => (delR, ())

/-- The state of the storing remote: the entities it holds, keyed by resource group,
job name and input name. -/
abbrev Store := List ((String × String × String) × Input)

/-- The entity the storing remote holds at a key, if any. -/
def Store.find (s : Store) (key : String × String × String) : Option Input :=
  match s with
  | [] => none
  | (k, v) :: rest => if k = key then some v else Store.find rest key

/-- The store with the entity at a key put in place. -/
def Store.put (s : Store) (key : String × String × String) (v : Input) : Store :=
  (key, v) :: s.filter (fun e => decide (e.1 ≠ key))

/-- An entity as the remote hands it back: the credential is left out. -/
def Input.withoutPassword (i : Input) : Input :=
  match i.Properties with
  | some (.reference ⟨some (.azureSQL ⟨some p⟩)⟩) =>
    { i with Properties := some (.reference ⟨some (.azureSQL ⟨some { p with Password := none }⟩)⟩) }
  | _ => i

/-- The answer of a remote that holds nothing at the key: status 404 and an error. -/
def notFoundInput : Input × Option Error :=
  (⟨⟨some ⟨404⟩⟩, none, none, none, none⟩, some (.remote "ResourceNotFound"))

/-- The remote of the end-to-end scenario (spec section 8): it stores the spec it
receives in `CreateOrReplace` under the key of the call and on `Get` returns what it
holds there without the credential, or NotFound when it holds nothing. -/
def storeClient : InputsClient Store where
  Get := fun s _ rg job name =>
    match s.find (rg, job, name) with
    | some e => ({ e.withoutPassword with Response := ⟨some ⟨200⟩⟩ }, none)
    | none => notFoundInput
  CreateOrReplace := fun s _ input rg job name _ _ =>
    let e : Input := { input with ID := some ("/" ++ rg ++ "/" ++ job ++ "/" ++ name) }
    (({ e.withoutPassword with Response := ⟨some ⟨200⟩⟩ }, none), s.put (rg, job, name) e)
  Update := fun s _ input rg job name _ =>
    match s.find (rg, job, name) with
    | some e0 =>
      let e : Input := { input with ID := e0.ID }
      (({ e.withoutPassword with Response := ⟨some ⟨200⟩⟩ }, none), s.put (rg, job, name) e)
    | none => (notFoundInput, s)
  Delete := fun s _ rg job name =>
    match s.find (rg, job, name) with
    | some _ => ((⟨some ⟨200⟩⟩, none), s.filter (fun e => decide (e.1 ≠ (rg, job, name))))
    | none => ((⟨some ⟨404⟩⟩, some (.remote "ResourceNotFound")), s)

/-- The segments of a path, split at every slash. -/
def splitSegments : List Char → List String
  | [] => [""]
  | c :: cs =>
    match splitSegments cs with
    | [] => [""]
    | seg :: rest => if c = '/' then "" :: seg :: rest else ⟨c :: seg.data⟩ :: rest

/-- Modelled from the spec: the identity string format of package `parse` (not among the
sources), a composite of scope, parent name and resource name that is serialised to a
single path and parsed back; a string of any other form fails to parse. -/
def azureIds : parse.Pkg where
  ID := fun id =>
    "/subscriptions/" ++ id.SubscriptionId ++ "/resourceGroups/" ++ id.ResourceGroup ++
    "/providers/Microsoft.StreamAnalytics/streamingjobs/" ++ id.StreamingjobName ++
    "/inputs/" ++ id.InputName
  StreamInputID := fun input =>
    match splitSegments input.data with
    | [e, k1, sub, k2, rg, k3, ns, k4, job, k5, name] =>
      if e = "" ∧ k1 = "subscriptions" ∧ k2 = "resourceGroups" ∧ k3 = "providers" ∧
          ns = "Microsoft.StreamAnalytics" ∧ k4 = "streamingjobs" ∧ k5 = "inputs" ∧
          sub ≠ "" ∧ rg ≠ "" ∧ job ≠ "" ∧ name ≠ "" then
        .ok ⟨sub, rg, job, name⟩
      else .error (.parsing ("malformed identity: " ++ input))
    | _ => .error (.parsing ("malformed identity: " ++ input))

/-- The attribute set with the given entries and nothing else. -/
def attrsOf (l : List (String × String)) (k : String) : Option String :=
  match l with
  | [] => none
  | (k0, v) :: rest => if k = k0 then some v else attrsOf rest k

/-- The desired configuration of the end-to-end scenario (spec section 8), as the
resource data of a new resource with the declared timeouts. -/
def e2eConfig : ResourceData where
  id := ""
  isNew := true
  attrs := attrsOf
    [("name", "in1"), ("stream_analytics_job_name", "job1"), ("resource_group_name", "rg1"),
     ("server", "s"), ("database", "d"), ("user", "u"), ("password", "p"),
     ("refresh_type", ""), ("refresh_rate", ""), ("full_snapshot_query", "SELECT * FROM t")]
  timeouts := resourceStreamAnalyticsReferenceInputSQL.Timeouts

/-! ## The calls a lifecycle function issues, and their answers -/

/-- The `Get` that Read issues for the parsed identity `id`. -/
def readCall (d : ResourceData) (id : StreamInputId) : Call :=
  .Get (timeouts.ForCreateUpdate d) id.ResourceGroup id.StreamingjobName id.InputName

/-- The answer of the remote to the `Get` that Read issues for the parsed identity `id`. -/
def readAnswer {σ : Type} (meta : clients.Client σ) (d : ResourceData) (w : World σ)
    (id : StreamInputId) : Input × Option Error :=
  meta.InputsClient.Get w.remote (timeouts.ForCreateUpdate d) id.ResourceGroup
    id.StreamingjobName id.InputName

/-- The candidate identity that Create builds from the configuration. -/
def candidateID {σ : Type} (meta : clients.Client σ) (d : ResourceData) : StreamInputId :=
  parse.NewStreamInputID meta.SubscriptionId (d.Get "resource_group_name")
    (d.Get "stream_analytics_job_name") (d.Get "name")

/-- The pre-check `Get` that Create issues for a new resource. -/
def precheckCall (d : ResourceData) : Call :=
  .Get (timeouts.ForCreateUpdate d) (d.Get "resource_group_name")
    (d.Get "stream_analytics_job_name") (d.Get "name")

/-- The answer of the remote to the pre-check `Get` of Create. -/
def precheckAnswer {σ : Type} (meta : clients.Client σ) (d : ResourceData) (w : World σ) :
    Input × Option Error :=
  meta.InputsClient.Get w.remote (timeouts.ForCreateUpdate d) (d.Get "resource_group_name")
    (d.Get "stream_analytics_job_name") (d.Get "name")

/-- The `CreateOrReplace` that Create issues. -/
def createCall (d : ResourceData) : Call :=
  .CreateOrReplace (timeouts.ForCreateUpdate d) (getSQLReferenceInputProps d).1
    (d.Get "resource_group_name") (d.Get "stream_analytics_job_name") (d.Get "name") "" ""

/-- The answer of the remote to the `CreateOrReplace` of Create, with the remote state
that the call leaves. -/
def createAnswer {σ : Type} (meta : clients.Client σ) (d : ResourceData) (w : World σ) :
    (Input × Option Error) × σ :=
  meta.InputsClient.CreateOrReplace w.remote (timeouts.ForCreateUpdate d)
    (getSQLReferenceInputProps d).1 (d.Get "resource_group_name")
    (d.Get "stream_analytics_job_name") (d.Get "name") "" ""

/-- The `Delete` that Delete issues for the parsed identity `id`. -/
def deleteCall (d : ResourceData) (id : StreamInputId) : Call :=
  .Delete (timeouts.ForCreateUpdate d) id.ResourceGroup id.StreamingjobName id.InputName

/-- The answer of the remote to the `Delete` that Delete issues, with the remote state
that the call leaves. -/
def deleteAnswer {σ : Type} (meta : clients.Client σ) (d : ResourceData) (w : World σ)
    (id : StreamInputId) : (autorest.Response × Option Error) × σ :=
  meta.InputsClient.Delete w.remote (timeouts.ForCreateUpdate d) id.ResourceGroup
    id.StreamingjobName id.InputName

/-- The resource data of an imported or refreshed resource: identity `id`, not new, the
given attributes and the declared timeouts. -/
def stateOf (id : String) (attrs : List (String × String)) : ResourceData where
  id := id
  isNew := false
  attrs := attrsOf attrs
  timeouts := resourceStreamAnalyticsReferenceInputSQL.Timeouts

/-- The identity of the end-to-end scenario under subscription "sub". -/
def in1 : StreamInputId := ⟨"sub", "rg1", "job1", "in1"⟩

/-- A state of the storing remote that already holds an entity at the key of the
end-to-end scenario. -/
def occupied : Store :=
  [(("rg1", "job1", "in1"), ⟨⟨none⟩, none, some "/rg1/job1/in1", some "in1", none⟩)]

/-- A remote without state on which every `Get` reports NotFound and every mutating
call fails with a conflict. -/
def failingClient : InputsClient Unit :=
  scriptedClient notFoundInput (⟨⟨some ⟨409⟩⟩, none, none, none, none⟩, some (.remote "Conflict"))
    (⟨some ⟨409⟩⟩, some (.remote "Conflict"))

/-- A schema entry for `resource_group_name`: required, immutable, non-empty. -/
def resourceGroupSchema : schema.Schema :=
  { Required := true, ForceNew := true, ValidateFunc := validation.StringIsNotEmpty }

/-! ## Lemmas on strings -/

theorem utf8ByteSize_go_pos (c : Char) (cs : List Char) :
    0 < String.utf8ByteSize.go (c :: cs) := by
  have h : 0 < c.utf8Size := Char.utf8Size_pos c
  simp only [String.utf8ByteSize.go]
  omega

theorem utf8ByteSize_eq_zero_iff (s : String) : s.utf8ByteSize = 0 ↔ s = "" := by
  cases s with
  | mk cs =>
    cases cs with
    | nil => simp [String.utf8ByteSize, String.utf8ByteSize.go]
    | cons c cs =>
      have h := utf8ByteSize_go_pos c cs
      constructor
      · intro h0
        simp only [String.utf8ByteSize] at h0
        omega
      · intro h0
        have h1 := congrArg String.data h0
        simp at h1

theorem optionalString_some (retval : String) (defaultValue : Option String) :
    optionalString (some retval) defaultValue
      = if retval = "" then defaultValue else some retval := by
  simp only [optionalString, utf8ByteSize_eq_zero_iff]


/-! ## Spec building -/

/-- C1: `optionalString` returns the default for an absent or empty value and the value
itself otherwise; hence, for every desired configuration, the built spec has the SQL
shape, its refresh_type is "Static" when the configured refresh_type is absent or
empty and the configured string otherwise, and its refresh_rate is "00:00:00" when the
configured refresh_rate is absent or empty and the configured string otherwise. -/
theorem C1_spec_refresh_defaults (d : ResourceData) :
    (∀ s dflt : Option String,
      optionalString s dflt = if s = none ∨ s = some "" then dflt else s) ∧
    (getSQLReferenceInputProps d).2 = none ∧
    ∃ p, (getSQLReferenceInputProps d).1.sqlProperties = some p ∧
      p.RefreshType =
        (if d.attrs "refresh_type" = none ∨ d.attrs "refresh_type" = some "" then some "Static"
         else d.attrs "refresh_type") ∧
      p.RefreshRate =
        (if d.attrs "refresh_rate" = none ∨ d.attrs "refresh_rate" = some "" then some "00:00:00"
         else d.attrs "refresh_rate") := by
  refine ⟨?_, rfl, _, rfl, ?_, ?_⟩
  · intro s dflt
    cases s with
    | none => simp [optionalString]
    | some v =>
      rw [optionalString_some]
      by_cases hv : v = "" <;> simp [hv]
  · show optionalString (some (d.Get "refresh_type")) (some "Static") = _
    rw [optionalString_some, ResourceData.Get]
    cases h : d.attrs "refresh_type" with
    | none => simp
    | some v => by_cases hv : v = "" <;> simp [hv]
  · show optionalString (some (d.Get "refresh_rate")) (some "00:00:00") = _
    rw [optionalString_some, ResourceData.Get]
    cases h : d.attrs "refresh_rate" with
    | none => simp
    | some v => by_cases hv : v = "" <;> simp [hv]

/-! ## Read -/

/-- C5: Read never populates the credential: whatever the prior state and whatever the
remote answers, the password attribute after Read is the one before Read. -/
theorem C5_read_keeps_password {σ : Type} (P : parse.Pkg) (meta : clients.Client σ)
    (d : ResourceData) (w : World σ) :
    (resourceStreamAnalyticsReferenceInputSQLRead P meta d w).d.attrs "password"
      = d.attrs "password" := by
  unfold resourceStreamAnalyticsReferenceInputSQLRead
  dsimp only
  repeat' split
  all_goals simp [ResourceData.Set, ResourceData.SetId]

/-- C4: for a parseable Identity whose `Get` fails, Read issues that one `Get` and:
when the response is NotFound it returns no error, sets the persisted Identity to the
empty string and writes no attribute; when the response is not NotFound it returns
the retrieval error and leaves the resource data, Identity included, as it was. -/
theorem C4_read_not_found_clears_identity {σ : Type} (P : parse.Pkg) (meta : clients.Client σ)
    (d : ResourceData) (w : World σ) (id : StreamInputId) (err : Error)
    (hid : P.StreamInputID d.Id = .ok id)
    (hget : (readAnswer meta d w id).2 = some err) :
    (resourceStreamAnalyticsReferenceInputSQLRead P meta d w).world.calls
        = w.calls ++ [readCall d id] ∧
    (utils.ResponseWasNotFound (readAnswer meta d w id).1.Response = true →
      (resourceStreamAnalyticsReferenceInputSQLRead P meta d w).outcome = .returned none ∧
      (resourceStreamAnalyticsReferenceInputSQLRead P meta d w).d.Id = "" ∧
      (resourceStreamAnalyticsReferenceInputSQLRead P meta d w).d.attrs = d.attrs) ∧
    (utils.ResponseWasNotFound (readAnswer meta d w id).1.Response = false →
      (resourceStreamAnalyticsReferenceInputSQLRead P meta d w).outcome
        = .returned (some (.retrieving id err)) ∧
      (resourceStreamAnalyticsReferenceInputSQLRead P meta d w).d = d) := by
  unfold readAnswer at hget
  unfold resourceStreamAnalyticsReferenceInputSQLRead readAnswer readCall
  simp only [hid, hget]
  refine ⟨?_, ?_, ?_⟩
  · split <;> rfl
  · intro h
    simp [h, ResourceData.SetId, ResourceData.Id]
  · intro h
    simp [h]

/-- Witness of C4: the storing remote holds nothing, so Read reports the resource absent. -/
theorem C4_read_not_found_clears_identity_witness :
    (resourceStreamAnalyticsReferenceInputSQLRead azureIds ⟨storeClient, "sub"⟩
        (stateOf (azureIds.ID in1) []) ⟨[], []⟩).outcome = .returned none ∧
    (resourceStreamAnalyticsReferenceInputSQLRead azureIds ⟨storeClient, "sub"⟩
        (stateOf (azureIds.ID in1) []) ⟨[], []⟩).d.Id = "" :=
  have h := C4_read_not_found_clears_identity azureIds ⟨storeClient, "sub"⟩
    (stateOf (azureIds.ID in1) []) ⟨[], []⟩ in1 (.remote "ResourceNotFound") rfl rfl
  ⟨(h.2.1 rfl).1, (h.2.1 rfl).2.1⟩

/-- C3 (amended): for a parseable Identity whose `Get` succeeds with properties that are
present but not of the reference-input variant, Read returns the shape-mismatch error;
by then it has written name, stream_analytics_job_name and resource_group_name from
the parsed Identity, and it leaves the persisted Identity and every other attribute as
they were. -/
theorem C3_read_shape_mismatch {σ : Type} (P : parse.Pkg) (meta : clients.Client σ)
    (d : ResourceData) (w : World σ) (id : StreamInputId) (props : BasicInputProperties)
    (hid : P.StreamInputID d.Id = .ok id)
    (hget : (readAnswer meta d w id).2 = none)
    (hprops : (readAnswer meta d w id).1.Properties = some props)
    (hshape : props.AsReferenceInputProperties.2 = false) :
    (resourceStreamAnalyticsReferenceInputSQLRead P meta d w).outcome
      = .returned (some .convertingToReferenceInput) ∧
    (resourceStreamAnalyticsReferenceInputSQLRead P meta d w).d.Id = d.Id ∧
    (resourceStreamAnalyticsReferenceInputSQLRead P meta d w).d.attrs "name"
      = some id.InputName ∧
    (resourceStreamAnalyticsReferenceInputSQLRead P meta d w).d.attrs "stream_analytics_job_name"
      = some id.StreamingjobName ∧
    (resourceStreamAnalyticsReferenceInputSQLRead P meta d w).d.attrs "resource_group_name"
      = some id.ResourceGroup ∧
    ∀ k, k ≠ "name" → k ≠ "stream_analytics_job_name" → k ≠ "resource_group_name" →
      (resourceStreamAnalyticsReferenceInputSQLRead P meta d w).d.attrs k = d.attrs k := by
  unfold readAnswer at hget hprops
  have hpair : ∀ x : Option ReferenceInputProperties × Bool, x.2 = false → ∃ v, x = (v, false) :=
    fun x hx => ⟨x.1, by cases x; simp_all⟩
  obtain ⟨v, hv⟩ := hpair _ hshape
  unfold resourceStreamAnalyticsReferenceInputSQLRead
  simp only [hid, hget, hprops, hv]
  refine ⟨?_, ?_, ?_, ?_, ?_, ?_⟩
  · simp
  · simp [ResourceData.Set, ResourceData.Id]
  · simp [ResourceData.Set]
  · simp [ResourceData.Set]
  · simp [ResourceData.Set]
  · intro k h1 h2 h3
    simp [ResourceData.Set, h1, h2, h3]

/-- Witness of C3 (amended): a stream input is read back under the identity. -/
theorem C3_read_shape_mismatch_witness :
    (resourceStreamAnalyticsReferenceInputSQLRead azureIds
        ⟨scriptedClient (⟨⟨some ⟨200⟩⟩, some .stream, some "x", some "in1", none⟩, none)
          notFoundInput (⟨none⟩, none), "sub"⟩
        (stateOf (azureIds.ID in1) [("server", "s")]) ⟨(), []⟩).outcome
      = .returned (some .convertingToReferenceInput) :=
  (C3_read_shape_mismatch azureIds
    ⟨scriptedClient (⟨⟨some ⟨200⟩⟩, some .stream, some "x", some "in1", none⟩, none)
      notFoundInput (⟨none⟩, none), "sub"⟩
    (stateOf (azureIds.ID in1) [("server", "s")]) ⟨(), []⟩ in1 .stream rfl rfl rfl rfl).1

/-- Counterexample to C3 as stated: on an imported resource (no attribute known yet)
whose remote entity is a stream input, Read returns the shape-mismatch error and yet
the attribute name has changed from unset to "in1". -/
theorem C3_early_write_counterexample :
    (resourceStreamAnalyticsReferenceInputSQLRead azureIds
        ⟨scriptedClient (⟨⟨some ⟨200⟩⟩, some .stream, some "x", some "in1", none⟩, none)
          notFoundInput (⟨none⟩, none), "sub"⟩
        (stateOf (azureIds.ID in1) []) ⟨(), []⟩).outcome
      = .returned (some .convertingToReferenceInput) ∧
    (stateOf (azureIds.ID in1) []).attrs "name" = none ∧
    (resourceStreamAnalyticsReferenceInputSQLRead azureIds
        ⟨scriptedClient (⟨⟨some ⟨200⟩⟩, some .stream, some "x", some "in1", none⟩, none)
          notFoundInput (⟨none⟩, none), "sub"⟩
        (stateOf (azureIds.ID in1) []) ⟨(), []⟩).d.attrs "name" = some "in1" :=
  ⟨rfl, rfl, rfl⟩

/-! ## Delete -/

/-- C6: for a parseable Identity, Delete issues one remote `Delete` and returns an
error exactly when that call fails with a response that is not NotFound; when the
call fails with NotFound, Delete returns without error. -/
theorem C6_delete_idempotent {σ : Type} (P : parse.Pkg) (meta : clients.Client σ)
    (d : ResourceData) (w : World σ) (id : StreamInputId)
    (hid : P.StreamInputID d.Id = .ok id) :
    (resourceStreamAnalyticsReferenceInputSQLDelete P meta d w).world.calls
        = w.calls ++ [deleteCall d id] ∧
    ((∃ e, (resourceStreamAnalyticsReferenceInputSQLDelete P meta d w).outcome
          = .returned (some e)) ↔
      ((deleteAnswer meta d w id).1.2 ≠ none ∧
        response.WasNotFound (deleteAnswer meta d w id).1.1.Response = false)) ∧
    ((resourceStreamAnalyticsReferenceInputSQLDelete P meta d w).outcome = .returned none ↔
      ¬ ((deleteAnswer meta d w id).1.2 ≠ none ∧
        response.WasNotFound (deleteAnswer meta d w id).1.1.Response = false)) ∧
    (response.WasNotFound (deleteAnswer meta d w id).1.1.Response = true →
      (resourceStreamAnalyticsReferenceInputSQLDelete P meta d w).outcome = .returned none) := by
  unfold resourceStreamAnalyticsReferenceInputSQLDelete deleteAnswer deleteCall
  simp only [hid]
  cases herr : (meta.InputsClient.Delete w.remote (timeouts.ForCreateUpdate d) id.ResourceGroup
      id.StreamingjobName id.InputName).1.2 with
  | none => simp
  | some e =>
    cases hnf : response.WasNotFound (meta.InputsClient.Delete w.remote
        (timeouts.ForCreateUpdate d) id.ResourceGroup id.StreamingjobName
        id.InputName).1.1.Response <;> simp

/-- Witness of C6: deleting what the storing remote does not hold is not an error. -/
theorem C6_delete_idempotent_witness :
    (resourceStreamAnalyticsReferenceInputSQLDelete azureIds ⟨storeClient, "sub"⟩
        (stateOf (azureIds.ID in1) []) ⟨[], []⟩).outcome = .returned none :=
  (C6_delete_idempotent azureIds ⟨storeClient, "sub"⟩ (stateOf (azureIds.ID in1) []) ⟨[], []⟩
    in1 rfl).2.2.2 rfl

/-! ## Create -/

theorem precheck_world {σ : Type} (P : parse.Pkg) (meta : clients.Client σ) (d : ResourceData)
    (w : World σ) :
    (resourceStreamAnalyticsReferenceInputSQLCreate.precheck P meta d w
        (timeouts.ForCreateUpdate d) (candidateID meta d)).2.remote = w.remote ∧
    (resourceStreamAnalyticsReferenceInputSQLCreate.precheck P meta d w
        (timeouts.ForCreateUpdate d) (candidateID meta d)).2.calls
      = if d.IsNewResource = true then w.calls ++ [precheckCall d] else w.calls := by
  unfold resourceStreamAnalyticsReferenceInputSQLCreate.precheck candidateID precheckCall
    parse.NewStreamInputID
  dsimp only
  repeat' split
  all_goals simp_all

theorem read_calls_extend {σ : Type} (P : parse.Pkg) (meta : clients.Client σ)
    (d : ResourceData) (w : World σ) (c : Call) (hc : c ∈ w.calls) :
    c ∈ (resourceStreamAnalyticsReferenceInputSQLRead P meta d w).world.calls := by
  unfold resourceStreamAnalyticsReferenceInputSQLRead
  dsimp only
  repeat' split
  all_goals simp [hc]

/-- C2: Create of a new resource whose pre-check `Get` either returns an entity with a
non-empty id or fails with a response that is not NotFound returns an error (the
retrieval error in the second case, the "already exists" error otherwise); the only
call it issues is that `Get`, so no `CreateOrReplace` is issued, and the remote state
and the resource data, persisted Identity included, are left as they were. -/
theorem C2_create_precheck_stops {σ : Type} (P : parse.Pkg) (meta : clients.Client σ)
    (d : ResourceData) (w : World σ)
    (hnew : d.IsNewResource = true)
    (h : ((precheckAnswer meta d w).1.ID ≠ none ∧ (precheckAnswer meta d w).1.ID ≠ some "") ∨
      ((precheckAnswer meta d w).2 ≠ none ∧
        utils.ResponseWasNotFound (precheckAnswer meta d w).1.Response = false)) :
    (∃ e, (resourceStreamAnalyticsReferenceInputSQLCreate P meta d w).outcome
        = .returned (some e)) ∧
    (resourceStreamAnalyticsReferenceInputSQLCreate P meta d w).world.calls
      = w.calls ++ [precheckCall d] ∧
    (∀ c ∈ (resourceStreamAnalyticsReferenceInputSQLCreate P meta d w).world.calls,
      c.isCreateOrReplace = true → c ∈ w.calls) ∧
    (resourceStreamAnalyticsReferenceInputSQLCreate P meta d w).world.remote = w.remote ∧
    (resourceStreamAnalyticsReferenceInputSQLCreate P meta d w).d = d ∧
    (∀ err, (precheckAnswer meta d w).2 = some err →
      utils.ResponseWasNotFound (precheckAnswer meta d w).1.Response = false →
      (resourceStreamAnalyticsReferenceInputSQLCreate P meta d w).outcome
        = .returned (some (.checkingPresence (candidateID meta d) err))) ∧
    (¬ ((precheckAnswer meta d w).2 ≠ none ∧
        utils.ResponseWasNotFound (precheckAnswer meta d w).1.Response = false) →
      (resourceStreamAnalyticsReferenceInputSQLCreate P meta d w).outcome
        = .returned (some (tf.ImportAsExistsError
            "azurerm_stream_analytics_reference_input_mssql" (P.ID (candidateID meta d))))) := by
  have hcalls : ∀ c ∈ w.calls ++ [precheckCall d], c.isCreateOrReplace = true → c ∈ w.calls := by
    intro c hc hcr
    rcases List.mem_append.1 hc with hc | hc
    · exact hc
    · simp only [List.mem_singleton] at hc
      subst hc
      simp [precheckCall, Call.isCreateOrReplace] at hcr
  have hrun : ∀ e, resourceStreamAnalyticsReferenceInputSQLCreate.precheck P meta d w
        (timeouts.ForCreateUpdate d) (candidateID meta d)
        = (some e, ⟨w.remote, w.calls ++ [precheckCall d]⟩) →
      resourceStreamAnalyticsReferenceInputSQLCreate P meta d w
        = ⟨.returned (some e), d, ⟨w.remote, w.calls ++ [precheckCall d]⟩⟩ := by
    intro e he
    unfold candidateID at he
    unfold resourceStreamAnalyticsReferenceInputSQLCreate
    simp only [he]
  cases herr : (precheckAnswer meta d w).2 with
  | none =>
    have hid : (precheckAnswer meta d w).1.ID ≠ none ∧ (precheckAnswer meta d w).1.ID ≠ some "" := by
      rcases h with h | h
      · exact h
      · exact absurd herr h.1
    rw [hrun (tf.ImportAsExistsError "azurerm_stream_analytics_reference_input_mssql"
      (P.ID (candidateID meta d)))]
    · refine ⟨⟨_, rfl⟩, rfl, hcalls, rfl, rfl, ?_, ?_⟩
      · intro err h1
        exact absurd h1 (by simp)
      · intro _
        rfl
    · unfold precheckAnswer at herr hid
      unfold resourceStreamAnalyticsReferenceInputSQLCreate.precheck candidateID precheckCall
        parse.NewStreamInputID
      simp [hnew, herr, hid]
  | some e =>
    cases hnf : utils.ResponseWasNotFound (precheckAnswer meta d w).1.Response with
    | false =>
      rw [hrun (.checkingPresence (candidateID meta d) e)]
      · refine ⟨⟨_, rfl⟩, rfl, hcalls, rfl, rfl, ?_, ?_⟩
        · intro err h1 _
          cases h1
          rfl
        · intro h1
          exact absurd ⟨by simp, rfl⟩ h1
      · unfold precheckAnswer at herr hnf
        unfold resourceStreamAnalyticsReferenceInputSQLCreate.precheck candidateID precheckCall
          parse.NewStreamInputID
        simp [hnew, herr, hnf]
    | true =>
      have hid : (precheckAnswer meta d w).1.ID ≠ none ∧
          (precheckAnswer meta d w).1.ID ≠ some "" := by
        rcases h with h | h
        · exact h
        · rw [hnf] at h
          exact absurd h.2 (by simp)
      rw [hrun (tf.ImportAsExistsError "azurerm_stream_analytics_reference_input_mssql"
        (P.ID (candidateID meta d)))]
      · refine ⟨⟨_, rfl⟩, rfl, hcalls, rfl, rfl, ?_, ?_⟩
        · intro err _ h2
          exact absurd h2 (by simp)
        · intro _
          rfl
      · unfold precheckAnswer at herr hnf hid
        unfold resourceStreamAnalyticsReferenceInputSQLCreate.precheck candidateID precheckCall
          parse.NewStreamInputID
        simp [hnew, herr, hnf, hid]

/-- Witness of C2: the storing remote already holds an entity at the candidate identity. -/
theorem C2_create_precheck_stops_witness :
    (resourceStreamAnalyticsReferenceInputSQLCreate azureIds ⟨storeClient, "sub"⟩ e2eConfig
        ⟨occupied, []⟩).world.calls = [] ++ [precheckCall e2eConfig] ∧
    (resourceStreamAnalyticsReferenceInputSQLCreate azureIds ⟨storeClient, "sub"⟩ e2eConfig
        ⟨occupied, []⟩).world.remote = occupied :=
  have h := C2_create_precheck_stops azureIds ⟨storeClient, "sub"⟩ e2eConfig ⟨occupied, []⟩ rfl
    (Or.inl ⟨by decide, by decide⟩)
  ⟨h.2.1, h.2.2.2.1⟩

/-- C10: if the `CreateOrReplace` that Create issues fails, Create returns an error and
leaves the resource data, persisted Identity included, as it was; once the pre-check
has passed that error is the creation error and the `CreateOrReplace` is the last call
issued, so no Read follows. Conversely the persisted Identity changes only if the
`CreateOrReplace` was issued and succeeded. -/
theorem C10_create_atomic_on_failure {σ : Type} (P : parse.Pkg) (meta : clients.Client σ)
    (d : ResourceData) (w : World σ) :
    (∀ err, (createAnswer meta d w).1.2 = some err →
      (∃ e, (resourceStreamAnalyticsReferenceInputSQLCreate P meta d w).outcome
          = .returned (some e)) ∧
      (resourceStreamAnalyticsReferenceInputSQLCreate P meta d w).d = d ∧
      ((resourceStreamAnalyticsReferenceInputSQLCreate.precheck P meta d w
          (timeouts.ForCreateUpdate d) (candidateID meta d)).1 = none →
        (resourceStreamAnalyticsReferenceInputSQLCreate P meta d w).outcome
          = .returned (some (.creating (candidateID meta d) err)) ∧
        (resourceStreamAnalyticsReferenceInputSQLCreate P meta d w).world.calls
          = (if d.IsNewResource = true then w.calls ++ [precheckCall d] else w.calls)
            ++ [createCall d])) ∧
    ((resourceStreamAnalyticsReferenceInputSQLCreate P meta d w).d.Id ≠ d.Id →
      (createAnswer meta d w).1.2 = none ∧
      createCall d ∈ (resourceStreamAnalyticsReferenceInputSQLCreate P meta d w).world.calls) := by
  have hw := precheck_world P meta d w
  unfold candidateID createAnswer createCall at *
  unfold resourceStreamAnalyticsReferenceInputSQLCreate
  dsimp only
  rcases hpre : resourceStreamAnalyticsReferenceInputSQLCreate.precheck P meta d w
      (timeouts.ForCreateUpdate d) (parse.NewStreamInputID meta.SubscriptionId
        (d.Get "resource_group_name") (d.Get "stream_analytics_job_name") (d.Get "name"))
    with ⟨e0, w1⟩
  rw [hpre] at hw
  obtain ⟨hw1, hw2⟩ := hw
  dsimp only at hw1 hw2
  cases e0 with
  | some e0 => simp
  | none =>
    have hprops : getSQLReferenceInputProps d = ((getSQLReferenceInputProps d).1, none) := rfl
    rw [hprops]
    dsimp only
    rw [hw1, hw2]
    simp only [parse.NewStreamInputID]
    cases hput : (meta.InputsClient.CreateOrReplace w.remote (timeouts.ForCreateUpdate d)
        (getSQLReferenceInputProps d).1 (d.Get "resource_group_name")
        (d.Get "stream_analytics_job_name") (d.Get "name") "" "").1.2 with
    | some e => simp
    | none =>
      simp only [reduceCtorEq, false_implies, implies_true, true_and]
      intro _
      exact read_calls_extend _ _ _ _ _ (by simp)

/-- Witness of C10: on a remote whose `CreateOrReplace` fails with a conflict, Create
returns the creation error after the pre-check and the failed call, and the Identity
is still empty. -/
theorem C10_create_atomic_on_failure_witness :
    (resourceStreamAnalyticsReferenceInputSQLCreate azureIds ⟨failingClient, "sub"⟩ e2eConfig
        ⟨(), []⟩).outcome = .returned (some (.creating in1 (.remote "Conflict"))) ∧
    (resourceStreamAnalyticsReferenceInputSQLCreate azureIds ⟨failingClient, "sub"⟩ e2eConfig
        ⟨(), []⟩).d = e2eConfig :=
  have h := (C10_create_atomic_on_failure azureIds ⟨failingClient, "sub"⟩ e2eConfig
    ⟨(), []⟩).1 (.remote "Conflict") rfl
  ⟨(h.2.2 rfl).1, h.2.1⟩


/-! ## Deadlines -/

/-- C9 (as the code behaves): for a parseable Identity, the `Get` issued by Read and the
`Delete` issued by Delete both run under the context of `timeouts.ForCreateUpdate`,
that is under the Create or Update ceiling; with the declared timeouts this is 30
minutes, which is not the declared Read ceiling of 5 minutes (and happens to equal the
declared Delete ceiling). -/
theorem C9_read_and_delete_use_create_update_ceiling {σ : Type} (P : parse.Pkg)
    (meta : clients.Client σ) (d : ResourceData) (w : World σ) (id : StreamInputId)
    (hid : P.StreamInputID d.Id = .ok id) :
    (resourceStreamAnalyticsReferenceInputSQLRead P meta d w).world.calls
      = w.calls ++ [Call.Get (timeouts.ForCreateUpdate d) id.ResourceGroup id.StreamingjobName
          id.InputName] ∧
    (resourceStreamAnalyticsReferenceInputSQLDelete P meta d w).world.calls
      = w.calls ++ [Call.Delete (timeouts.ForCreateUpdate d) id.ResourceGroup id.StreamingjobName
          id.InputName] ∧
    ((timeouts.ForCreateUpdate d).timeout = d.timeouts.Create ∨
      (timeouts.ForCreateUpdate d).timeout = d.timeouts.Update) ∧
    (d.timeouts = resourceStreamAnalyticsReferenceInputSQL.Timeouts →
      timeouts.ForCreateUpdate d = ⟨30 * time.Minute⟩ ∧
      timeouts.ForRead d = ⟨5 * time.Minute⟩ ∧
      timeouts.ForCreateUpdate d ≠ timeouts.ForRead d ∧
      timeouts.ForCreateUpdate d = timeouts.ForDelete d) := by
  refine ⟨?_, ?_, ?_, ?_⟩
  · unfold resourceStreamAnalyticsReferenceInputSQLRead
    simp only [hid]
    repeat' split
    all_goals rfl
  · unfold resourceStreamAnalyticsReferenceInputSQLDelete
    simp only [hid]
    repeat' split
    all_goals rfl
  · unfold timeouts.ForCreateUpdate
    split <;> simp
  · intro ht
    unfold timeouts.ForCreateUpdate timeouts.ForRead timeouts.ForDelete
    rw [ht]
    simp [resourceStreamAnalyticsReferenceInputSQL.Timeouts, time.Minute]

/-- Witness of C9 (as the code behaves): refreshing a resource with the declared
timeouts asks the remote under a 30 minute ceiling. -/
theorem C9_read_and_delete_use_create_update_ceiling_witness :
    (resourceStreamAnalyticsReferenceInputSQLRead azureIds ⟨storeClient, "sub"⟩
        (stateOf (azureIds.ID in1) []) ⟨[], []⟩).world.calls
      = [] ++ [Call.Get (timeouts.ForCreateUpdate (stateOf (azureIds.ID in1) [])) "rg1" "job1"
          "in1"] ∧
    timeouts.ForCreateUpdate (stateOf (azureIds.ID in1) []) = ⟨30 * time.Minute⟩ ∧
    timeouts.ForRead (stateOf (azureIds.ID in1) []) = ⟨5 * time.Minute⟩ :=
  have h := C9_read_and_delete_use_create_update_ceiling azureIds ⟨storeClient, "sub"⟩
    (stateOf (azureIds.ID in1) []) ⟨[], []⟩ in1 rfl
  ⟨h.1, (h.2.2.2 rfl).1, (h.2.2.2 rfl).2.1⟩

/-! ## Schema validation -/

theorem TrimSpace_of_isBlank (v : String) (h : isBlank v) : strings.TrimSpace v = "" := by
  have h1 : v.data.dropWhile unicode.IsSpace = [] := List.dropWhile_eq_nil_iff.2 h
  unfold strings.TrimSpace
  rw [h1]
  rfl

/-- C7 (amended): for every required field declared in this resource and every value,
the declared validator reports an error when the value is the empty string, and also
when the value consists of white space only and the field is one of server, database,
user, password, refresh_type, refresh_rate, full_snapshot_query; for name and
stream_analytics_job_name every value that is not the empty string is accepted,
white space only or not. -/
theorem C7_required_field_validators (rg : schema.Schema) (key v : String)
    (hkey : key ∈ requiredFields) :
    (v = "" → resourceStreamAnalyticsReferenceInputSQL.validate rg key v ≠ []) ∧
    (isBlank v → key ≠ "name" → key ≠ "stream_analytics_job_name" →
      resourceStreamAnalyticsReferenceInputSQL.validate rg key v ≠ []) ∧
    (key = "name" ∨ key = "stream_analytics_job_name" → v ≠ "" →
      resourceStreamAnalyticsReferenceInputSQL.validate rg key v = []) := by
  have ht0 : strings.TrimSpace "" = "" := TrimSpace_of_isBlank "" (by decide)
  simp only [requiredFields, List.mem_cons, List.mem_singleton, List.not_mem_nil, or_false]
    at hkey
  refine ⟨?_, ?_, ?_⟩
  · intro hv
    subst hv
    rcases hkey with rfl | rfl | rfl | rfl | rfl | rfl | rfl | rfl | rfl <;>
      simp [resourceStreamAnalyticsReferenceInputSQL.validate,
        resourceStreamAnalyticsReferenceInputSQL.Schema, validation.StringIsNotEmpty,
        validation.StringIsNotWhiteSpace, ht0]
  · intro hblank
    have ht := TrimSpace_of_isBlank v hblank
    rcases hkey with rfl | rfl | rfl | rfl | rfl | rfl | rfl | rfl | rfl <;>
      simp [resourceStreamAnalyticsReferenceInputSQL.validate,
        resourceStreamAnalyticsReferenceInputSQL.Schema, validation.StringIsNotEmpty,
        validation.StringIsNotWhiteSpace, ht]
  · intro hk hv
    rcases hk with rfl | rfl <;>
      simp [resourceStreamAnalyticsReferenceInputSQL.validate,
        resourceStreamAnalyticsReferenceInputSQL.Schema, validation.StringIsNotEmpty, hv]

/-- Witness of C7 (amended): a server that is a single blank is rejected, an empty name
is rejected, and the name "in1" is accepted. -/
theorem C7_required_field_validators_witness :
    resourceStreamAnalyticsReferenceInputSQL.validate resourceGroupSchema "server" " " ≠ [] ∧
    resourceStreamAnalyticsReferenceInputSQL.validate resourceGroupSchema "name" "" ≠ [] ∧
    resourceStreamAnalyticsReferenceInputSQL.validate resourceGroupSchema "name" "in1" = [] :=
  ⟨(C7_required_field_validators resourceGroupSchema "server" " " (by decide)).2.1
      (by decide) (by decide) (by decide),
    (C7_required_field_validators resourceGroupSchema "name" "" (by decide)).1 rfl,
    (C7_required_field_validators resourceGroupSchema "name" "in1" (by decide)).2.2
      (Or.inl rfl) (by decide)⟩

/-- Counterexample to C7 as stated: name is a required field, a single blank consists
of white space only, and the validator declared for name accepts it. -/
theorem C7_name_accepts_blank_counterexample :
    "name" ∈ requiredFields ∧ isBlank " " ∧
    resourceStreamAnalyticsReferenceInputSQL.validate resourceGroupSchema "name" " " = [] :=
  ⟨by decide, by decide, by decide⟩


/-! ## End to end -/

theorem Store.find_put (s : Store) (key : String × String × String) (v : Input) :
    (s.put key v).find key = some v := by
  simp [Store.put, Store.find]

/-- C8: against the storing remote in a state that holds no entity at the identity, and
with an identity format that parses back at (rg1, job1, in1), Create of the scenario
configuration returns no error, persists the Identity format(rg1, job1, in1), issues
the pre-check `Get`, the `CreateOrReplace` and the `Get` of Read, and leaves
refresh_type "Static", refresh_rate "00:00:00", server "s", database "d", user "u";
the remote hands the entity back without a password, and the password attribute is
still the configured one. -/
theorem C8_create_then_read (P : parse.Pkg) (sub : String) (s : Store) (log : List Call)
    (hround : P.StreamInputID (P.ID ⟨sub, "rg1", "job1", "in1"⟩)
      = .ok ⟨sub, "rg1", "job1", "in1"⟩)
    (habsent : s.find ("rg1", "job1", "in1") = none) :
    (resourceStreamAnalyticsReferenceInputSQLCreate P ⟨storeClient, sub⟩ e2eConfig
        ⟨s, log⟩).outcome = .returned none ∧
    (resourceStreamAnalyticsReferenceInputSQLCreate P ⟨storeClient, sub⟩ e2eConfig
        ⟨s, log⟩).d.Id = P.ID (parse.NewStreamInputID sub "rg1" "job1" "in1") ∧
    (resourceStreamAnalyticsReferenceInputSQLCreate P ⟨storeClient, sub⟩ e2eConfig
        ⟨s, log⟩).d.Get "refresh_type" = "Static" ∧
    (resourceStreamAnalyticsReferenceInputSQLCreate P ⟨storeClient, sub⟩ e2eConfig
        ⟨s, log⟩).d.Get "refresh_rate" = "00:00:00" ∧
    (resourceStreamAnalyticsReferenceInputSQLCreate P ⟨storeClient, sub⟩ e2eConfig
        ⟨s, log⟩).d.Get "server" = "s" ∧
    (resourceStreamAnalyticsReferenceInputSQLCreate P ⟨storeClient, sub⟩ e2eConfig
        ⟨s, log⟩).d.Get "database" = "d" ∧
    (resourceStreamAnalyticsReferenceInputSQLCreate P ⟨storeClient, sub⟩ e2eConfig
        ⟨s, log⟩).d.Get "user" = "u" ∧
    (resourceStreamAnalyticsReferenceInputSQLCreate P ⟨storeClient, sub⟩ e2eConfig
        ⟨s, log⟩).d.attrs "password" = e2eConfig.attrs "password" ∧
    (resourceStreamAnalyticsReferenceInputSQLCreate P ⟨storeClient, sub⟩ e2eConfig
        ⟨s, log⟩).world.calls
      = log ++ [precheckCall e2eConfig, createCall e2eConfig,
          Call.Get ⟨30 * time.Minute⟩ "rg1" "job1" "in1"] ∧
    (storeClient.Get (resourceStreamAnalyticsReferenceInputSQLCreate P ⟨storeClient, sub⟩
        e2eConfig ⟨s, log⟩).world.remote ⟨5 * time.Minute⟩ "rg1" "job1" "in1").1.sqlProperties
      = some ⟨some "s", some "d", some "u", none, none, some "Static", some "00:00:00",
          some "SELECT * FROM t", none⟩ := by
  have hget : e2eConfig.Get "name" = "in1" ∧ e2eConfig.Get "stream_analytics_job_name" = "job1" ∧
      e2eConfig.Get "resource_group_name" = "rg1" := ⟨rfl, rfl, rfl⟩
  obtain ⟨h1, h2, h3⟩ := hget
  have hprops : getSQLReferenceInputProps e2eConfig =
      (⟨⟨none⟩, some (.reference ⟨some (.azureSQL ⟨some ⟨some "s", some "d", some "u", some "p",
        none, some "Static", some "00:00:00", some "SELECT * FROM t", none⟩⟩)⟩), none,
        some "in1", none⟩, none) := by rfl
  have hnew : e2eConfig.IsNewResource = true := rfl
  have hctx : ∀ v, timeouts.ForCreateUpdate (e2eConfig.SetId v) = ⟨30 * time.Minute⟩ :=
    fun _ => rfl
  have hpre : resourceStreamAnalyticsReferenceInputSQLCreate.precheck P ⟨storeClient, sub⟩
      e2eConfig ⟨s, log⟩ (timeouts.ForCreateUpdate e2eConfig)
      (parse.NewStreamInputID sub "rg1" "job1" "in1")
      = (none, ⟨s, log ++ [precheckCall e2eConfig]⟩) := by
    unfold resourceStreamAnalyticsReferenceInputSQLCreate.precheck precheckCall
    simp [h1, h2, h3, hnew, parse.NewStreamInputID, storeClient, habsent, notFoundInput,
      utils.ResponseWasNotFound]
  unfold resourceStreamAnalyticsReferenceInputSQLCreate
  simp only [h1, h2, h3, hpre, hprops]
  unfold resourceStreamAnalyticsReferenceInputSQLRead
  simp only [ResourceData.Id, parse.NewStreamInputID, hctx]
  simp only [ResourceData.SetId, hround]
  simp [storeClient, Store.find_put, Input.withoutPassword, Input.sqlProperties,
    BasicInputProperties.AsReferenceInputProperties,
    BasicReferenceInputDataSource.AsAzureSQLReferenceInputDataSource,
    ResourceData.Set, ResourceData.Get, createCall, h1, h2, h3, hprops]
  exact ⟨rfl, rfl, rfl⟩

/-- Witness of C8: the scenario on an empty storing remote, with the path format of
identities and subscription "sub". -/
theorem C8_create_then_read_witness :
    (resourceStreamAnalyticsReferenceInputSQLCreate azureIds ⟨storeClient, "sub"⟩ e2eConfig
        ⟨[], []⟩).outcome = .returned none ∧
    (resourceStreamAnalyticsReferenceInputSQLCreate azureIds ⟨storeClient, "sub"⟩ e2eConfig
        ⟨[], []⟩).d.Id
      = "/subscriptions/sub/resourceGroups/rg1/providers/Microsoft.StreamAnalytics/streamingjobs/job1/inputs/in1" ∧
    (resourceStreamAnalyticsReferenceInputSQLCreate azureIds ⟨storeClient, "sub"⟩ e2eConfig
        ⟨[], []⟩).d.Get "refresh_type" = "Static" :=
  have h := C8_create_then_read azureIds "sub" [] [] rfl rfl
  ⟨h.1, h.2.1, h.2.2.1⟩


end streamanalytics
